import Mathlib

/-!
# Shallow embedding of `src/main.ts` (rate-limit strategies)

The repository implements five rate-limiting strategies against a Redis
store.  Each strategy is embedded here as a pure function from the
portion of the store it touches (plus the current time, which in the
source comes from `dayjs().utc().unix()`) to a pair of the returned
boolean decision and the post-call store state.

Store modelling choices, faithful to the Redis commands used:
* string counters (`get`/`set`/`incr`/`exists`) become a map
  `String → Option Int`; `set key 0` stores `0`, `incr` adds one.
  The `EX` expiry argument of `set` is wall-clock behaviour of the
  store and is not modelled (no claim depends on key expiry).
* the leaky-bucket list (`lLen`/`rPop`/`rPush`) becomes a `List String`
  (head = oldest/left end); `rPop` drops the last element (no-op when
  empty), `rPush` appends on the right.
* the sliding-log sorted set (`zCount`/`zAdd`/`zRemRangeByScore`)
  becomes a `List (String × Int)` of (member, score) pairs; `zCount`
  counts scores in the inclusive range, `zAdd` updates the score of an
  existing member or appends a new one, and
  `zRemRangeByScore key -Infinity bound` removes entries with score
  `≤ bound` (Redis range bounds are inclusive).
* the token-bucket keys `userID:last_reset_time` and `userID:count`
  become a two-field structure of `Option Int`; a `get` of an absent
  key is read as `0` exactly where the source coerces `null` to `0`.

Two behaviours of the source that a reader might not expect are kept
deliberately, because the source really has them:
* `dayjs` objects are immutable, so `currentTime.set('second', 0)`
  (fixed window, line 45) and `currentTime.set('seconds', 0)` (sliding
  window, line 128) discard their result: the window value is the raw
  `now`, not a truncated time.
* `RateLimitUsingLeakyBucket` ends in `return false` (line 83) even on
  the path that pops and pushes the queue.
-/

/-- A Redis string-counter store fragment: key to stored integer. -/
def Store : Type := String → Option Int

/-- `client.set key v` on the counter store. -/
def Store.set (st : Store) (k : String) (v : Int) : Store :=
  fun k2 => if k2 = k then some v else st k2

/-- `client.incr key` (the source only calls it on existing keys). -/
def Store.incr (st : Store) (k : String) : Store :=
  fun k2 => if k2 = k then some ((st k).getD 0 + 1) else st k2

/-- The empty store: no key present. -/
def Store.empty : Store := fun _ => none

/-- The window key `userID:window` built at line 48 of the source,
where `window` is `currentTime.unix()`.  Since the result of
`currentTime.set('second', 0)` is discarded (dayjs is immutable),
`window` is the raw current unix time. -/
def fixedWindowKey (userID : String) (now : Int) : String :=
  userID ++ ":" ++ toString now

/-- `RateLimitUsingFixedWindow` (source lines 38-65).  Reads the count
under the window key; denies when present and `≥ maximumRequests`;
otherwise increments an existing key or creates it at `0`. -/
def RateLimitUsingFixedWindow (userID : String) (intervalInSeconds : Int)
    (maximumRequests : Int) (now : Int) (store : Store) : Bool × Store :=
  let _ := intervalInSeconds  -- used in the source only for the EX expiry
  let key := fixedWindowKey userID now
  match store key with
  | some value =>
      if value ≥ maximumRequests then (false, store)
      else (true, store.incr key)
  | none => (true, store.set key 0)

/-- `RateLimitUsingLeakyBucket` (source lines 68-84).  Denies when the
queue already holds `maximumRequests` entries; otherwise pops the
rightmost entry (no-op on an empty list) and pushes the new request id
on the right — and then still returns `false` (line 83). -/
def RateLimitUsingLeakyBucket (maximumRequests : Int)
    (uniqueRequestID : String) (queue : List String) : Bool × List String :=
  if (queue.length : Int) ≥ maximumRequests then (false, queue)
  else (false, queue.dropLast ++ [uniqueRequestID])

/-- `client.zCount key min max`: entries with score in `[min, max]`. -/
def zCount (log : List (String × Int)) (min max : Int) : Int :=
  ((log.filter fun e => min ≤ e.2 ∧ e.2 ≤ max).length : Int)

/-- `client.zAdd key {score, value}`: update the score of an existing
member, else append the new member. -/
def zAdd (log : List (String × Int)) (member : String) (score : Int) :
    List (String × Int) :=
  if log.any fun e => e.1 = member then
    log.map fun e => if e.1 = member then (member, score) else e
  else log ++ [(member, score)]

/-- `client.zRemRangeByScore key -Infinity bound`: drop every entry
with score `≤ bound` (Redis range bounds are inclusive). -/
def zRemUpTo (log : List (String × Int)) (bound : Int) :
    List (String × Int) :=
  log.filter fun e => ¬ e.2 ≤ bound

/-- `RateLimitUsingSlidingLogs` (source lines 87-118).  Counts entries
scored in `[now - interval, now]`; when that count reaches the limit it
recounts the same range into `requestCountFromStart` (lines 102: the
bounds are `lastWindowTime, currentTime` again) and compacts old
entries only when that windowed recount exceeds `100 × maximumRequests`;
otherwise inserts `(uniqueRequestID, now)` and allows. -/
def RateLimitUsingSlidingLogs (intervalInSeconds maximumRequests : Int)
    (uniqueRequestID : String) (now : Int) (log : List (String × Int)) :
    Bool × List (String × Int) :=
  let lastWindowTime := now - intervalInSeconds
  let requestCount := zCount log lastWindowTime now
  if requestCount ≥ maximumRequests then
    let requestCountFromStart := zCount log lastWindowTime now
    if requestCountFromStart > maximumRequests * 100 then
      (false, zRemUpTo log lastWindowTime)
    else (false, log)
  else (true, zAdd log uniqueRequestID now)

/-- `RateLimitUsingSlidingWindow` (source lines 121-162).  The current
window value is the raw `now` (the `set('seconds', 0)` result is
discarded); `elapsedTimePercentage` is
`Math.trunc((currentWindow % interval) / interval)`, an integer; the
weighted sum is then used directly as a truthiness test (line 149), so
any nonzero sum denies. -/
def RateLimitUsingSlidingWindow (userID : String)
    (intervalInSeconds maximumRequests : Int) (now : Int) (store : Store) :
    Bool × Store :=
  let currentWindow := now
  let keyCurrentWindow := userID ++ ":" ++ toString currentWindow
  let currentWindowCount := (store keyCurrentWindow).getD 0
  if currentWindowCount ≥ maximumRequests then (false, store)
  else
    let lastWindow := now - intervalInSeconds
    let keyLastWindow := userID ++ ":" ++ toString lastWindow
    let lastWindowCount := (store keyLastWindow).getD 0
    let elapsedTimePercentage := currentWindow % intervalInSeconds / intervalInSeconds
    if lastWindowCount * (1 - elapsedTimePercentage) + currentWindowCount ≠ 0 then
      (false, store)
    else
      match store keyCurrentWindow with
      | some v =>
          (true, store.set keyCurrentWindow (v + 1))
      | none => (true, store.set keyCurrentWindow 0)

/-- The two token-bucket keys `userID:last_reset_time` and
`userID:count` for one identity. -/
structure TokenBucketState where
  lastResetTime : Option Int
  count : Option Int
deriving DecidableEq

/-- `RateLimitUsingTokenBucket` (source lines 165-195).  An absent
`last_reset_time` reads as `0`.  When `now - lastResetTime ≥ interval`
the count is set to `maximumRequests` and the reset time to `now`,
then the trailing `decr` runs; otherwise a non-positive (or absent)
count denies, and a positive count is decremented. -/
def RateLimitUsingTokenBucket (intervalInSeconds maximumRequests : Int)
    (now : Int) (s : TokenBucketState) : Bool × TokenBucketState :=
  let lastRestTimeCount := s.lastResetTime.getD 0
  if now - lastRestTimeCount ≥ intervalInSeconds then
    (true, ⟨some now, some (maximumRequests - 1)⟩)
  else
    let count := s.count.getD 0
    if count ≤ 0 then (false, s)
    else (true, ⟨s.lastResetTime, some (count - 1)⟩)

/-- Run a sequence of token-bucket checks, collecting the returned
decisions and threading the stored state. -/
def runTokenBucket (intervalInSeconds maximumRequests : Int)
    (s : TokenBucketState) : List Int → List Bool × TokenBucketState
  | [] => ([], s)
  | t :: ts =>
      let r := RateLimitUsingTokenBucket intervalInSeconds maximumRequests t s
      let rest := runTokenBucket intervalInSeconds maximumRequests r.2 ts
      (r.1 :: rest.1, rest.2)

/-- Run a sequence of sliding-log checks, each given as a pair of the
unique request id and the check time. -/
def runSlidingLogs (intervalInSeconds maximumRequests : Int)
    (log : List (String × Int)) : List (String × Int) → List Bool × List (String × Int)
  | [] => ([], log)
  | r :: rs =>
      let step := RateLimitUsingSlidingLogs intervalInSeconds maximumRequests r.1 r.2 log
      let rest := runSlidingLogs intervalInSeconds maximumRequests step.2 rs
      (step.1 :: rest.1, rest.2)

/-- Run a sequence of leaky-bucket checks given by their request ids. -/
def runLeakyBucket (maximumRequests : Int) (q : List String) :
    List String → List Bool × List String
  | [] => ([], q)
  | e :: es =>
      let r := RateLimitUsingLeakyBucket maximumRequests e q
      let rest := runLeakyBucket maximumRequests r.2 es
      (r.1 :: rest.1, rest.2)

/-- Modelled from the spec (section 4.4), for comparison with the
source: the weighted two-window estimate
`currentCount + previousCount * (1 - elapsedFraction)` with
`elapsedFraction` the real-valued fraction of the current window
already elapsed. -/
def slidingWindowSpecEstimate (intervalInSeconds now currentCount previousCount : Int) : ℚ :=
  currentCount + previousCount * (1 - ((now % intervalInSeconds : Int) : ℚ) / (intervalInSeconds : ℚ))

/-- C1: the claim says that once `maxRequests` admissions have happened
in an interval, the next check in the same interval is denied, for
every strategy.  The fixed-window strategy violates it: with
`maximumRequests = 1`, a first check at `t = 0` on an empty store is
admitted (and seeds the counter at 0), and the next check at the same
time — hence in the same interval — is admitted as well. -/
theorem C1_fixedWindow_admits_beyond_limit :
    (RateLimitUsingFixedWindow "u" 60 1 0 Store.empty).1 = true ∧
    (RateLimitUsingFixedWindow "u" 60 1 0
      (RateLimitUsingFixedWindow "u" 60 1 0 Store.empty).2).1 = true := by
  decide

/-- C2: the claim says a leaky-bucket check with stored queue length
strictly below `maxRequests` returns `allowed = true`.  The source
returns `false` on that path (line 83): on an empty queue with
`maximumRequests = 1` there is space, the request id is pushed, yet the
returned decision is `false`. -/
theorem C2_leakyBucket_returns_false_despite_space :
    (([] : List String).length : Int) < 1 ∧
    RateLimitUsingLeakyBucket 1 "e1" [] = (false, ["e1"]) := by
  decide

/-- C3: the claim says a sliding-window check is denied iff the
real-valued estimate reaches `maxRequests`.  At `now = 30`,
`intervalSeconds = 60`, `maxRequests = 5`, with a stored current-window
count of 1 and no previous window, the spec estimate is 1 < 5, yet the
source denies: it truncates the elapsed fraction to the integer 0 and
then treats the nonzero sum `1` as a truthy deny condition. -/
theorem C3_slidingWindow_denies_below_estimate :
    slidingWindowSpecEstimate 60 30 1 0 < 5 ∧
    (RateLimitUsingSlidingWindow "u" 60 5 30 (Store.empty.set "u:30" 1)).1 = false := by
  constructor
  · norm_num [slidingWindowSpecEstimate]
  · decide

/-- C5: the claim says the fixed-window key joins the identity with
`now` truncated to its window start, so checks at `t = 0` and `t = 1`
(same 60-second window, witnessed by the equal window indices
`0 / 60 = 1 / 60`) should share a key.  In the source the result of
`currentTime.set('second', 0)` is discarded, so the raw `now` is used
and the two keys differ. -/
theorem C5_fixedWindow_key_not_truncated :
    (0 : Int) / 60 = 1 / 60 ∧
    fixedWindowKey "u" 0 = "u:0" ∧
    fixedWindowKey "u" 1 = "u:1" ∧
    fixedWindowKey "u" 0 ≠ fixedWindowKey "u" 1 := by
  decide

/-- C6 counterexample: the claim starts its token-bucket scenario at
`t = 0` from no stored state.  There the absent `last_reset_time`
reads as `0`, so `now - lastResetTime = 0 < 60`: no refill happens,
the absent count reads as `0 ≤ 0`, and the very first check is denied
— the claimed five allowed checks at `t = 0` do not happen. -/
theorem C6_first_check_at_zero_denied :
    (RateLimitUsingTokenBucket 60 5 0 ⟨none, none⟩).1 = false := by
  decide

/-- C6 amended: the same scenario shifted so that the first check time
is at least `intervalSeconds` past the epoch (here `t = 60`), which
makes the first-request refill fire: five checks at `t = 60` are all
allowed, a sixth at `t = 61` is denied, and a check at `t = 120`
(one interval after the reset) is allowed again whatever integer token
count is stored. -/
theorem C6_tokenBucket_scenario_shifted :
    (runTokenBucket 60 5 ⟨none, none⟩ [60, 60, 60, 60, 60, 61]).1 =
      [true, true, true, true, true, false] ∧
    ∀ c : Int, (RateLimitUsingTokenBucket 60 5 120 ⟨some 60, some c⟩).1 = true := by
  refine ⟨by decide, fun c => ?_⟩
  simp [RateLimitUsingTokenBucket]

/-- C7: the sliding-log scenario of the spec, exactly as claimed:
with `intervalSeconds = 60` and `maxRequests = 3`, starting from an
empty log, checks `e1, e2, e3` at `t = 0` are allowed, a fourth check
at `t = 10` is denied, and a fifth at `t = 61` (the `t = 0` entries
now outside the trailing window) is allowed. -/
theorem C7_slidingLog_scenario :
    (runSlidingLogs 60 3 []
      [("e1", 0), ("e2", 0), ("e3", 0), ("e4", 10), ("e5", 61)]).1 =
      [true, true, true, false, true] := by
  decide

/-- A sliding-log store with 101 distinct members scored 0 (long out
of any recent window) plus one member scored 1000. -/
def hundredOldLog : List (String × Int) :=
  ((List.range 101).map fun i => ("o" ++ toString i, 0)) ++ [("r", 1000)]

/-- C8: the claim says a denied sliding-log check compacts (deletes
entries scored below `now - intervalSeconds`) whenever the total
historical count exceeds `100 × maxRequests`.  With
`maxRequests = 1`, `intervalSeconds = 60`, `now = 1000` and a log of
102 total entries (101 of them scored 0, far below `940`), the check
is denied and the total exceeds 100, yet nothing is deleted: line 102
recounts the window `[940, 1000]` (obtaining 1) instead of counting
from the start, so the compaction branch never fires. -/
theorem C8_compaction_counts_window_not_total :
    (hundredOldLog.length : Int) > 1 * 100 ∧
    ((hundredOldLog.filter fun e => e.2 < 1000 - 60).length = 101) ∧
    (RateLimitUsingSlidingLogs 60 1 "e" 1000 hundredOldLog).1 = false ∧
    (RateLimitUsingSlidingLogs 60 1 "e" 1000 hundredOldLog).2 = hundredOldLog := by
  refine ⟨by decide, by decide, by decide, by decide⟩

/-- C4 counterexample: the claim says a check that returns denied
never mutates stored state, for every strategy and every starting
state.  The leaky bucket falsifies it: on queue `["a"]` with
`maximumRequests = 2` there is space, so the check pops and pushes —
the queue becomes `["b"]` — yet the returned decision is `false`. -/
theorem C4_denied_leakyBucket_mutates :
    (RateLimitUsingLeakyBucket 2 "b" ["a"]).1 = false ∧
    (RateLimitUsingLeakyBucket 2 "b" ["a"]).2 ≠ ["a"] := by
  decide

/-- C4 amended: a denied check leaves the store unchanged for the
fixed-window, sliding-window and token-bucket strategies; the leaky
bucket leaves the queue unchanged on its capacity-denial branch (its
admit branch also returns `false` but mutates); and a denied
sliding-log check leaves the log unchanged except that, when the
windowed recount exceeds `100 × maxRequests`, it deletes exactly the
entries scored at most `now - intervalSeconds`. -/
theorem C4_denied_check_mutation (userID uid : String)
    (intervalInSeconds maximumRequests now : Int) (store : Store)
    (q : List String) (log : List (String × Int)) (s : TokenBucketState) :
    ((RateLimitUsingFixedWindow userID intervalInSeconds maximumRequests now store).1 = false →
      (RateLimitUsingFixedWindow userID intervalInSeconds maximumRequests now store).2 = store) ∧
    ((RateLimitUsingSlidingWindow userID intervalInSeconds maximumRequests now store).1 = false →
      (RateLimitUsingSlidingWindow userID intervalInSeconds maximumRequests now store).2 = store) ∧
    ((RateLimitUsingTokenBucket intervalInSeconds maximumRequests now s).1 = false →
      (RateLimitUsingTokenBucket intervalInSeconds maximumRequests now s).2 = s) ∧
    ((q.length : Int) ≥ maximumRequests →
      (RateLimitUsingLeakyBucket maximumRequests uid q).2 = q) ∧
    ((RateLimitUsingSlidingLogs intervalInSeconds maximumRequests uid now log).1 = false →
      (RateLimitUsingSlidingLogs intervalInSeconds maximumRequests uid now log).2 =
        if zCount log (now - intervalInSeconds) now > maximumRequests * 100 then
          zRemUpTo log (now - intervalInSeconds)
        else log) := by
  refine ⟨?_, ?_, ?_, ?_, ?_⟩
  · unfold RateLimitUsingFixedWindow
    cases h : store (fixedWindowKey userID now) <;> simp [h]
    split <;> simp
  · unfold RateLimitUsingSlidingWindow
    dsimp only
    split_ifs with h1 h2
    · simp
    · simp
    · cases h : store (userID ++ ":" ++ toString now) <;> simp [h]
  · unfold RateLimitUsingTokenBucket
    dsimp only
    split_ifs <;> simp
  · intro h
    unfold RateLimitUsingLeakyBucket
    simp [h]
  · unfold RateLimitUsingSlidingLogs
    dsimp only
    split_ifs with h1 h2 <;> simp

/-- C4 witness: concrete denied checks for each conjunct of the
amended statement. -/
theorem C4_denied_check_mutation_witness :
    (RateLimitUsingFixedWindow "u" 60 1 0 (Store.empty.set "u:0" 5)).2 =
      Store.empty.set "u:0" 5 ∧
    (RateLimitUsingSlidingWindow "u" 60 1 0 (Store.empty.set "u:0" 5)).2 =
      Store.empty.set "u:0" 5 ∧
    (RateLimitUsingTokenBucket 60 1 0 ⟨some 0, some 0⟩).2 =
      (⟨some 0, some 0⟩ : TokenBucketState) ∧
    (RateLimitUsingLeakyBucket 1 "e" ["a"]).2 = ["a"] ∧
    (RateLimitUsingSlidingLogs 60 1 "e" 0 [("x", 0)]).2 =
      (if zCount [("x", 0)] (0 - 60) 0 > 1 * 100 then
        zRemUpTo [("x", 0)] (0 - 60)
      else [("x", 0)]) :=
  have H := C4_denied_check_mutation "u" "e" 60 1 0
    (Store.empty.set "u:0" 5) ["a"] [("x", 0)] ⟨some 0, some 0⟩
  ⟨H.1 (by decide), H.2.1 (by decide), H.2.2.1 (by decide),
    H.2.2.2.1 (by decide), H.2.2.2.2 (by decide)⟩

/-- The token-ledger invariant of the claim: whenever a count is
stored for the identity it is an integer in `[0, maxRequests]`. -/
def tokenBucketInv (maximumRequests : Int) (s : TokenBucketState) : Prop :=
  ∀ c, s.count = some c → 0 ≤ c ∧ c ≤ maximumRequests

theorem tokenBucket_check_preserves_inv
    (intervalInSeconds maximumRequests now : Int) (hmax : 1 ≤ maximumRequests)
    (s : TokenBucketState) (hs : tokenBucketInv maximumRequests s) :
    tokenBucketInv maximumRequests
      (RateLimitUsingTokenBucket intervalInSeconds maximumRequests now s).2 := by
  unfold RateLimitUsingTokenBucket
  dsimp only
  split_ifs with h1 h2
  · intro c hc
    simp at hc
    omega
  · exact hs
  · intro c hc
    cases hco : s.count with
    | none => simp [hco] at h2
    | some c0 =>
        have hb := hs c0 hco
        simp [hco] at h2 hc
        omega

theorem runTokenBucket_preserves_inv (intervalInSeconds maximumRequests : Int)
    (hmax : 1 ≤ maximumRequests) :
    ∀ (ts : List Int) (s : TokenBucketState), tokenBucketInv maximumRequests s →
      tokenBucketInv maximumRequests
        (runTokenBucket intervalInSeconds maximumRequests s ts).2 := by
  intro ts
  induction ts with
  | nil => intro s hs; simpa [runTokenBucket] using hs
  | cons t ts ih =>
      intro s hs
      have hstep := tokenBucket_check_preserves_inv intervalInSeconds maximumRequests t hmax s hs
      simpa [runTokenBucket] using ih _ hstep

/-- C9: for every sequence of token-bucket checks starting from no
stored state, the stored count stays in `[0, maxRequests]` (never
negative); moreover one check refills — writing `maxRequests` and then
decrementing once for the admitted request, so ending at
`maxRequests - 1` with the reset time set to `now` — exactly when
`now - lastResetTime ≥ intervalSeconds` holds at its start, and
otherwise it leaves the reset time alone, decrements the count by
exactly 1 when it admits, and changes nothing when it denies. -/
theorem C9_tokenBucket_ledger_invariant (intervalInSeconds maximumRequests : Int)
    (hmax : 1 ≤ maximumRequests) (ts : List Int) :
    tokenBucketInv maximumRequests
      (runTokenBucket intervalInSeconds maximumRequests ⟨none, none⟩ ts).2 ∧
    ∀ (now : Int) (s : TokenBucketState),
      (now - s.lastResetTime.getD 0 ≥ intervalInSeconds →
        RateLimitUsingTokenBucket intervalInSeconds maximumRequests now s =
          (true, ⟨some now, some (maximumRequests - 1)⟩)) ∧
      (¬ now - s.lastResetTime.getD 0 ≥ intervalInSeconds →
        (RateLimitUsingTokenBucket intervalInSeconds maximumRequests now s).2.lastResetTime =
          s.lastResetTime ∧
        ((RateLimitUsingTokenBucket intervalInSeconds maximumRequests now s).1 = true →
          (RateLimitUsingTokenBucket intervalInSeconds maximumRequests now s).2.count =
            some (s.count.getD 0 - 1)) ∧
        ((RateLimitUsingTokenBucket intervalInSeconds maximumRequests now s).1 = false →
          (RateLimitUsingTokenBucket intervalInSeconds maximumRequests now s).2 = s)) := by
  refine ⟨runTokenBucket_preserves_inv intervalInSeconds maximumRequests hmax ts _
    (fun c hc => by simp at hc), fun now s => ⟨?_, ?_⟩⟩
  · intro h
    unfold RateLimitUsingTokenBucket
    dsimp only
    rw [if_pos h]
  · intro h
    unfold RateLimitUsingTokenBucket
    dsimp only
    rw [if_neg h]
    split_ifs with h2 <;> simp

/-- C9 witness: a concrete instantiation at `maxRequests = 5`,
`intervalSeconds = 60`, checks at `t = 60` and `t = 61`. -/
theorem C9_tokenBucket_ledger_invariant_witness :
    (1 : Int) ≤ 5 ∧
    tokenBucketInv 5 (runTokenBucket 60 5 ⟨none, none⟩ [60, 61]).2 :=
  ⟨by decide, (C9_tokenBucket_ledger_invariant 60 5 (by decide) [60, 61]).1⟩

/-- C10 counterexample: the claim concludes that with
`maxRequests ≥ 2` no leaky-bucket check on a fresh identity is ever
denied.  But the source returns `false` — a denial, as the decision
the caller receives — on every path, already for the very first check
on an empty queue with `maxRequests = 2`. -/
theorem C10_first_check_returns_false :
    (2 : Int) ≤ 2 ∧
    (RateLimitUsingLeakyBucket 2 "e1" []).1 = false := by
  decide

theorem runLeakyBucket_length_le_one (maximumRequests : Int)
    (hmax : 2 ≤ maximumRequests) :
    ∀ (es : List String) (q : List String), q.length ≤ 1 →
      (runLeakyBucket maximumRequests q es).2.length ≤ 1 := by
  intro es
  induction es with
  | nil => intro q hq; simpa [runLeakyBucket] using hq
  | cons e es ih =>
      intro q hq
      have hlen : ¬ (q.length : Int) ≥ maximumRequests := by omega
      have h1 : (q.dropLast ++ [e]).length ≤ 1 := by
        simp only [List.length_append, List.length_dropLast, List.length_cons,
          List.length_nil]
        omega
      simpa [runLeakyBucket, RateLimitUsingLeakyBucket, hlen] using ih _ h1

/-- C10 amended: starting from an empty queue, after any sequence of
leaky-bucket checks with `maxRequests ≥ 2` the stored queue length is
at most 1, and a check on a queue of length at most 1 never satisfies
the capacity test: it always pops the last entry (no-op when empty)
and pushes the new id — but its returned decision is still `false`,
because the source returns `false` on the admit path too. -/
theorem C10_leakyBucket_never_at_capacity (maximumRequests : Int)
    (hmax : 2 ≤ maximumRequests) (es : List String) :
    (runLeakyBucket maximumRequests [] es).2.length ≤ 1 ∧
    ∀ (e : String) (q : List String), q.length ≤ 1 →
      ¬ (q.length : Int) ≥ maximumRequests ∧
      RateLimitUsingLeakyBucket maximumRequests e q = (false, q.dropLast ++ [e]) := by
  refine ⟨runLeakyBucket_length_le_one maximumRequests hmax es [] (by simp),
    fun e q hq => ?_⟩
  have hlen : ¬ (q.length : Int) ≥ maximumRequests := by omega
  exact ⟨hlen, by simp [RateLimitUsingLeakyBucket, hlen]⟩

/-- C10 witness: the amended statement at `maxRequests = 2` with the
request sequence `a, b` from the empty queue, and a single check on
the length-1 queue `[x]`. -/
theorem C10_leakyBucket_never_at_capacity_witness :
    (2 : Int) ≤ 2 ∧
    (runLeakyBucket 2 [] ["a", "b"]).2.length ≤ 1 ∧
    ¬ ((["x"] : List String).length : Int) ≥ 2 ∧
    RateLimitUsingLeakyBucket 2 "b" ["x"] = (false, ["b"]) :=
  have H := C10_leakyBucket_never_at_capacity 2 (by decide) ["a", "b"]
  have H2 := H.2 "b" ["x"] (by decide)
  ⟨by decide, H.1, H2.1, H2.2⟩
